import Mathlib

/-!
Shallow embedding of the voice-dictation core:
`src/services/dictation/VoiceTranscriptionService.ts` and
`src/core/controller/dictation/startRecording.ts`.
-/

namespace Dictation

/-- JavaScript `String.prototype.includes` over explicit character lists:
true when `pat` occurs contiguously inside the list. -/
def listIncludes (pat : List Char) : List Char → Bool
  | [] => pat.isEmpty
  | c :: rest => pat.isPrefixOf (c :: rest) || listIncludes pat rest

/-- JavaScript `s.includes(pat)` on strings. -/
def strIncludes (s pat : String) : Bool :=
  listIncludes pat.toList s.toList

/-- JavaScript falsy-or on an optional string: `a || b` returns `b` when `a`
is absent or the empty string, else the string in `a`. -/
def jsOrElse (a : Option String) (b : String) : String :=
  match a with
  | some s => if s = "" then b else s
  | none => b

/-- JavaScript `s.toLowerCase()` (the ASCII fragment, which covers every
message the classifier inspects). -/
def strToLower (s : String) : String :=
  ⟨s.toList.map Char.toLower⟩

example : strIncludes "getaddrinfo ENOTFOUND api" "ENOTFOUND" = true := by decide

example : jsOrElse (some "") "x" = "x" := by decide

example : strToLower "ABc" = "abc" := by decide

/-! ## VoiceTranscriptionService (src/services/dictation/VoiceTranscriptionService.ts)

User-facing message constants, exactly as the string literals in the source. -/

def noInternetMsg : String := "No internet connection. Please check your network and try again."

def cannotConnectMsg : String := "Cannot connect to transcription service. Please check your internet connection."

def timedOutMsg : String := "Connection timed out. Please check your internet connection and try again."

def networkErrMsg : String := "Network error. Please check your internet connection."

def authFailedMsg : String := "Authentication failed. Please reauthenticate your Cline account"

def insufficientCreditsMsg : String := "Insufficient credits for transcription service."

def invalidAudioMsg : String := "Invalid audio format. Please try recording again."

def genericBadRequestMsg : String := "Invalid audio format or request data."

def serverErrMsg : String := "Transcription server error. Please try again later."

/-- The body of an axios error response: `error.response.data`, with its
optional `error` and `message` fields. -/
structure RespData where
  errField : Option String
  msgField : Option String
deriving DecidableEq

/-- An axios error response: `error.response`, with optional `status` and
optional `data`. -/
structure AxiosResponse where
  status : Option Nat
  data : Option RespData
deriving DecidableEq

/-- A JavaScript value caught by the `catch` in `transcribeAudio`:
an axios error (with `.message` and optional `.response`), a plain `Error`
instance (with `.message`), or any other thrown value (kept as its
`String(error)` rendering). -/
inductive JSErr where
  | axiosErr (message : String) (response : Option AxiosResponse)
  | jsError (message : String)
  | other (str : String)
deriving DecidableEq

/-- Line 48: `error.response?.data?.error || error.response?.data?.message || error.message`. -/
def extractedMessage (message : String) (response : Option AxiosResponse) : String :=
  jsOrElse ((response.bind AxiosResponse.data).bind RespData.errField)
    (jsOrElse ((response.bind AxiosResponse.data).bind RespData.msgField) message)

/-- Lines 45-92: the branch of the catch handler for `axios.isAxiosError(error)`. -/
def classifyAxios (message : String) (response : Option AxiosResponse) : String :=
  let msg := extractedMessage message response
  if strIncludes msg "ENOTFOUND" then noInternetMsg
  else if strIncludes msg "ECONNREFUSED" then cannotConnectMsg
  else if strIncludes msg "ETIMEDOUT" || strIncludes msg "ECONNRESET" then timedOutMsg
  else if strIncludes msg "Network Error" then networkErrMsg
  else
    match response.bind AxiosResponse.status with
    | some 401 => authFailedMsg
    | some 402 => insufficientCreditsMsg
    | some 400 =>
      if strIncludes (strToLower msg) "insufficient balance"
          || strIncludes (strToLower msg) "insufficient credits" then
        insufficientCreditsMsg
      else if strIncludes (strToLower msg) "invalid audio"
          || strIncludes (strToLower msg) "invalid format" then
        invalidAudioMsg
      else if strIncludes (strToLower msg) "exceeds" && strIncludes (strToLower msg) "limit" then
        msg
      else if msg = "" then genericBadRequestMsg else msg
    | some 500 => serverErrMsg
    | _ => "Transcription failed: " ++ msg

/-- Lines 94-111: the fallback branch of the catch handler, applied to
`errorMessage = error instanceof Error ? error.message : String(error)`. -/
def classifyNonAxios (errorMessage : String) : String :=
  if strIncludes errorMessage "ENOTFOUND" then noInternetMsg
  else if strIncludes errorMessage "ECONNREFUSED" || strIncludes errorMessage "Network Error" then
    cannotConnectMsg
  else if strIncludes errorMessage "ETIMEDOUT" || strIncludes errorMessage "ECONNRESET" then
    timedOutMsg
  else "Network error: " ++ errorMessage

/-- The whole catch handler of `transcribeAudio` (lines 41-112) as a pure
function of the caught value: the error classifier. -/
def classify : JSErr → String
  | .axiosErr message response => classifyAxios message response
  | .jsError m => classifyNonAxios m
  | .other s => classifyNonAxios s

/-- The message string the classifier extracts from a caught value:
`extractedMessage` for axios errors, `.message` for `Error` instances,
`String(error)` otherwise. -/
def rawExtracted : JSErr → String
  | .axiosErr message response => extractedMessage message response
  | .jsError m => m
  | .other s => s

/-- One organization membership of the account profile. -/
structure Org where
  active : Bool
deriving DecidableEq

/-- The account profile returned by `fetchMe` (only the field
`transcribeAudio` reads). -/
structure TUserInfo where
  organizations : Option (List Org)
deriving DecidableEq

/-- The resolved value of the remote `transcribeAudio` call: `{ text }`,
where `text` may be absent. -/
structure TranscribeResult where
  text : Option String
deriving DecidableEq

/-- `{ text?: string; error?: string }`, the return type of `transcribeAudio`. -/
structure TranscriptionOutcome where
  text : Option String
  error : Option String
deriving DecidableEq

/-- One invocation environment for `transcribeAudio`: how each awaited
collaborator behaves on this call. `Except.error` is a promise rejection
carrying the thrown value; `telemetryOk` is whether the dynamic loading of
the telemetry module and the capture succeed (their failure is swallowed by
the inner try/catch at lines 26-38). -/
structure TEnv where
  fetchMe : Except JSErr (Option TUserInfo)
  transcribe : Except JSErr TranscribeResult
  telemetryOk : Bool

/-- `VoiceTranscriptionService.transcribeAudio` (lines 12-113) as a function
of the collaborator behaviours for one call. -/
def transcribeAudio (env : TEnv) : TranscriptionOutcome :=
  match env.fetchMe with
  | .error e => { text := none, error := some (classify e) }
  | .ok userInfo =>
    let _isOrgAccount := ((userInfo.bind TUserInfo.organizations).bind
      (List.find? Org.active)).isSome
    match env.transcribe with
    | .error e => { text := none, error := some (classify e) }
    | .ok result => { text := result.text, error := none }

/-- The value caught by the catch handler during a call, when any. -/
def caughtOf (env : TEnv) : Option JSErr :=
  match env.fetchMe with
  | .error e => some e
  | .ok _ =>
    match env.transcribe with
    | .error e => some e
    | .ok _ => none

/-- When a value is caught, the outcome is exactly the classified error. -/
theorem transcribeAudio_of_caught (env : TEnv) (e : JSErr) (h : caughtOf env = some e) :
    transcribeAudio env = { text := none, error := some (classify e) } := by
  unfold caughtOf at h
  unfold transcribeAudio
  cases hf : env.fetchMe with
  | error e0 => simp [hf] at h; simp [h]
  | ok u =>
    cases ht : env.transcribe with
    | error e1 => simp [hf, ht] at h; simp [ht, h]
    | ok r => simp [hf, ht] at h

example :
    classify (.axiosErr "Request failed"
      (some ⟨some 400, some ⟨some "insufficient credits remaining", none⟩⟩)) =
      insufficientCreditsMsg := by decide

example :
    classify (.axiosErr "Request failed"
      (some ⟨some 400, some ⟨some "Request exceeds 10MB limit", none⟩⟩)) =
      "Request exceeds 10MB limit" := by decide

example :
    classify (.axiosErr "connect ETIMEDOUT 1.2.3.4"
      (some ⟨some 400, none⟩)) = timedOutMsg := by decide

example : classify (.axiosErr "Request failed" (some ⟨some 402, none⟩)) =
    insufficientCreditsMsg := by decide

example : classify (.axiosErr "socket hang up" (some ⟨some 503, some ⟨none, none⟩⟩)) =
    "Transcription failed: socket hang up" := by decide

example : classify (.other "headers timeout ETIMEDOUT and Network Error") = cannotConnectMsg := by
  decide

/-- Spec-side (section 4.3): does the extracted message contain one of the
five network substrings? -/
def hasNetworkSubstring (m : String) : Bool :=
  strIncludes m "ENOTFOUND" || strIncludes m "ECONNREFUSED" || strIncludes m "ETIMEDOUT"
    || strIncludes m "ECONNRESET" || strIncludes m "Network Error"

/-- Spec-side (section 4.3 table, top rows): the network message matching a
message with a network substring, first row winning. -/
def networkMessageFor (m : String) : String :=
  if strIncludes m "ENOTFOUND" then noInternetMsg
  else if strIncludes m "ECONNREFUSED" then cannotConnectMsg
  else if strIncludes m "ETIMEDOUT" || strIncludes m "ECONNRESET" then timedOutMsg
  else networkErrMsg

theorem classify_axios_401 (message : String) (d : Option RespData) :
    classify (.axiosErr message (some ⟨some 401, d⟩)) =
      if hasNetworkSubstring (extractedMessage message (some ⟨some 401, d⟩)) then
        networkMessageFor (extractedMessage message (some ⟨some 401, d⟩))
      else authFailedMsg := by
  show classifyAxios message (some ⟨some 401, d⟩) = _
  unfold classifyAxios hasNetworkSubstring networkMessageFor
  cases h1 : strIncludes (extractedMessage message (some ⟨some 401, d⟩)) "ENOTFOUND" <;>
  cases h2 : strIncludes (extractedMessage message (some ⟨some 401, d⟩)) "ECONNREFUSED" <;>
  cases h3 : strIncludes (extractedMessage message (some ⟨some 401, d⟩)) "ETIMEDOUT" <;>
  cases h4 : strIncludes (extractedMessage message (some ⟨some 401, d⟩)) "ECONNRESET" <;>
  cases h5 : strIncludes (extractedMessage message (some ⟨some 401, d⟩)) "Network Error" <;>
  simp [h1, h2, h3, h4, h5]

/-- C1: for every axios error carrying an HTTP response with status 401,
`transcribeAudio` returns the reauthenticate message, except when the
extracted message contains a network substring, in which case the
corresponding network message (first matching table row) is returned. -/
theorem transcribeAudio_status401 (env : TEnv) (message : String) (d : Option RespData)
    (h : caughtOf env = some (.axiosErr message (some ⟨some 401, d⟩))) :
    (transcribeAudio env).error =
      some (if hasNetworkSubstring (extractedMessage message (some ⟨some 401, d⟩)) then
              networkMessageFor (extractedMessage message (some ⟨some 401, d⟩))
            else authFailedMsg) := by
  rw [transcribeAudio_of_caught env _ h]
  rw [classify_axios_401]

theorem transcribeAudio_status401_witness :
    (transcribeAudio ⟨.ok none,
      .error (.axiosErr "Request failed with status code 401" (some ⟨some 401, none⟩)),
      true⟩).error = some authFailedMsg := by
  have h := transcribeAudio_status401
    ⟨.ok none, .error (.axiosErr "Request failed with status code 401" (some ⟨some 401, none⟩)),
      true⟩
    "Request failed with status code 401" none rfl
  rw [h]
  decide

theorem classify_of_enotfound (e : JSErr) (h : strIncludes (rawExtracted e) "ENOTFOUND" = true) :
    classify e = noInternetMsg := by
  cases e with
  | axiosErr m r =>
    simp only [rawExtracted] at h
    simp [classify, classifyAxios, h]
  | jsError m =>
    simp only [rawExtracted] at h
    simp [classify, classifyNonAxios, h]
  | other s =>
    simp only [rawExtracted] at h
    simp [classify, classifyNonAxios, h]

/-- C2: every caught error whose extracted message contains "ENOTFOUND"
yields the no-internet message, regardless of any HTTP status present. -/
theorem transcribeAudio_enotfound (env : TEnv) (e : JSErr)
    (hc : caughtOf env = some e)
    (h : strIncludes (rawExtracted e) "ENOTFOUND" = true) :
    (transcribeAudio env).error = some noInternetMsg := by
  rw [transcribeAudio_of_caught env e hc]
  rw [classify_of_enotfound e h]

theorem transcribeAudio_enotfound_witness :
    (transcribeAudio ⟨.ok (some ⟨some [⟨false⟩]⟩),
      .error (.axiosErr "getaddrinfo ENOTFOUND api.cline.bot" (some ⟨some 500, none⟩)),
      false⟩).error = some noInternetMsg :=
  transcribeAudio_enotfound
    ⟨.ok (some ⟨some [⟨false⟩]⟩),
      .error (.axiosErr "getaddrinfo ENOTFOUND api.cline.bot" (some ⟨some 500, none⟩)), false⟩
    (.axiosErr "getaddrinfo ENOTFOUND api.cline.bot" (some ⟨some 500, none⟩))
    rfl (by decide)

/-- C3 counterexample: when the remote service resolves with an undefined
`text` field, the returned outcome has NEITHER field populated, refuting
"exactly one field populated, never neither". -/
theorem transcriptionOutcome_neither_cex :
    (transcribeAudio ⟨.ok none, .ok ⟨none⟩, true⟩).text = none ∧
    (transcribeAudio ⟨.ok none, .ok ⟨none⟩, true⟩).error = none :=
  ⟨rfl, rfl⟩

/-- C3 amended: the outcome never has both fields populated; on a failure
exactly the error field is populated; on success the error field is empty
and the text field is exactly the remote text field, hence undefined when
the remote service resolved with an undefined text. -/
theorem transcriptionOutcome_exclusive (env : TEnv) :
    (¬ ((transcribeAudio env).text.isSome ∧ (transcribeAudio env).error.isSome)) ∧
    (∀ u r, env.fetchMe = .ok u → env.transcribe = .ok r →
      transcribeAudio env = ⟨r.text, none⟩) ∧
    (∀ e, caughtOf env = some e →
      transcribeAudio env = ⟨none, some (classify e)⟩) := by
  refine ⟨?_, ?_, ?_⟩
  · unfold transcribeAudio
    cases hf : env.fetchMe with
    | error e0 => simp
    | ok u =>
      cases ht : env.transcribe with
      | error e1 => simp
      | ok r => simp
  · intro u r hu hr
    unfold transcribeAudio
    rw [hu, hr]
  · intro e he
    exact transcribeAudio_of_caught env e he

theorem transcriptionOutcome_exclusive_witness :
    transcribeAudio ⟨.ok (some ⟨some [⟨true⟩]⟩), .ok ⟨some "hello"⟩, false⟩ =
      ⟨some "hello", none⟩ :=
  (transcriptionOutcome_exclusive ⟨.ok (some ⟨some [⟨true⟩]⟩), .ok ⟨some "hello"⟩, false⟩).2.1
    (some ⟨some [⟨true⟩]⟩) ⟨some "hello"⟩ rfl rfl

/-- Spec-side (sections 4.3 and 9): evaluate an ordered list of
predicate-message rules; the first matching rule wins and a default applies
when no rule matches. -/
def ruleEval (rules : List ((String → Bool) × String)) (fallback : String → String)
    (m : String) : String :=
  match rules with
  | [] => fallback m
  | (p, out) :: rest => if p m then out else ruleEval rest fallback m

/-- The network rule table the code applies to an error with no structured
HTTP response: the "Network Error" substring shares the cannot-connect rule
with "ECONNREFUSED", and the timeout rule comes after both. -/
def nonAxiosRuleTable : List ((String → Bool) × String) :=
  [(fun m => strIncludes m "ENOTFOUND", noInternetMsg),
   (fun m => strIncludes m "ECONNREFUSED" || strIncludes m "Network Error", cannotConnectMsg),
   (fun m => strIncludes m "ETIMEDOUT" || strIncludes m "ECONNRESET", timedOutMsg)]

/-- C7 counterexample: a non-axios error whose message contains
"Network Error" is classified as the cannot-connect message, not the
"Network error..." message that the structured-response table assigns to
that substring (shown on the axios branch with no response attached). -/
theorem nonAxios_networkError_cex :
    classify (.jsError "Network Error") = cannotConnectMsg ∧
    classify (.jsError "Network Error") ≠ networkErrMsg ∧
    classifyAxios "Network Error" none = networkErrMsg :=
  ⟨rfl, by decide, rfl⟩

/-- C7 amended: a caught error that is not an axios error is classified by
the ordered rule table ENOTFOUND to no-internet, then ECONNREFUSED or
"Network Error" to cannot-connect, then ETIMEDOUT or ECONNRESET to
timed-out, and any remainder falls through to "Network error: " plus the
raw message; this holds both for Error instances and for other thrown
values. -/
theorem classify_nonAxios_table (m : String) :
    classify (.jsError m) = ruleEval nonAxiosRuleTable (fun s => "Network error: " ++ s) m ∧
    classify (.other m) = ruleEval nonAxiosRuleTable (fun s => "Network error: " ++ s) m := by
  constructor <;>
    simp only [classify, classifyNonAxios, nonAxiosRuleTable, ruleEval]

/-! ## startRecording (src/core/controller/dictation/startRecording.ts) -/

def signInErrorMsg : String := "Please sign in to your Cline Account to use Dictation."

def ffmpegChatMsg : String :=
  "Your system is missing FFmpeg and the installation instructions have been sent to the chat"

def signInAction : String := "Sign in to Cline"

/-- A value thrown inside `startRecording`: an `Error` instance carrying its
`.message`, or any other thrown value (kept as its string rendering). -/
inductive SThrown where
  | errVal (msg : String)
  | nonError (str : String)
deriving DecidableEq

/-- Line 41: `error instanceof Error ? error.message : "Unknown error occurred"`. -/
def sThrownMessage : SThrown → String
  | .errVal m => m
  | .nonError _ => "Unknown error occurred"

/-- The `user` object of the cached auth info, with its optional `uid`. -/
structure AuthUser where
  uid : Option String
deriving DecidableEq

/-- The cached auth info returned by `authService.getInfo()`. -/
structure AuthInfo where
  user : Option AuthUser
deriving DecidableEq

/-- The resolved value of `audioRecordingService.startRecording()`:
`{ success, error? }`. -/
structure BackendResult where
  success : Bool
  error : Option String
deriving DecidableEq

/-- `RecordingResult { success, error }` as built by `RecordingResult.create`
(`error` defaults to the empty string). -/
structure RecordingResult where
  success : Bool
  error : String
deriving DecidableEq

/-- Line 18 truthiness test: `userInfo?.user?.uid` is truthy iff the uid is
present and nonempty. -/
def uidTruthy (info : Option AuthInfo) : Bool :=
  match (info.bind AuthInfo.user).bind AuthUser.uid with
  | some s => if s = "" then false else true
  | none => false

/-- One invocation environment for `startRecording`: the cached auth state,
how each awaited or called collaborator behaves on this call, and the
option the user picks in the error dialog (`none` when dismissed). The
dialog host and `createAuthRequest` resolve per their contracts. -/
structure SREnv where
  authInfo : Option AuthInfo
  backend : Except SThrown BackendResult
  telemetry : Except SThrown Unit
  initTask : Except SThrown Unit
  dialogChoice : Option String

/-- Observable collaborator interactions of one `startRecording` call. -/
structure SRLog where
  backendCalled : Bool
  initTaskArgs : List String
  telemetryCalled : Bool
  dialogShown : Bool
  authRequested : Bool
  caught : Option SThrown
deriving DecidableEq

/-- Lines 39-58: the catch handler. Shows the error dialog, initiates an
auth request when the sign-in action is selected, and returns success=false
with the derived error message. -/
def catchHandler (t : SThrown) (env : SREnv) (backendCalled telemetryCalled : Bool)
    (initTaskArgs : List String) : RecordingResult × SRLog :=
  ({ success := false, error := sThrownMessage t },
   { backendCalled := backendCalled
     initTaskArgs := initTaskArgs
     telemetryCalled := telemetryCalled
     dialogShown := true
     authRequested := env.dialogChoice = some signInAction
     caught := some t })

/-- `startRecording` (lines 13-59) as a function of the collaborator
behaviours for one call, returning the `RecordingResult` together with the
interaction log. -/
def startRecording (env : SREnv) : RecordingResult × SRLog :=
  if uidTruthy env.authInfo = false then
    catchHandler (.errVal signInErrorMsg) env false false []
  else
    match env.backend with
    | .error t => catchHandler t env true false []
    | .ok result =>
      if result.success then
        match env.telemetry with
        | .error t => catchHandler t env true true []
        | .ok _ =>
          ({ success := result.success, error := result.error.getD "" },
           { backendCalled := true, initTaskArgs := [], telemetryCalled := true
             dialogShown := false, authRequested := false, caught := none })
      else if (match result.error with
               | some e => if e = "" then false else strIncludes e "FFmpeg"
               | none => false) then
        match env.initTask with
        | .error t => catchHandler t env true false [result.error.getD ""]
        | .ok _ =>
          ({ success := false, error := ffmpegChatMsg },
           { backendCalled := true, initTaskArgs := [result.error.getD ""]
             telemetryCalled := false, dialogShown := false, authRequested := false
             caught := none })
      else
        ({ success := result.success, error := result.error.getD "" },
         { backendCalled := true, initTaskArgs := [], telemetryCalled := false
           dialogShown := false, authRequested := false, caught := none })

/-- C5: with no signed-in subject identifier in the cached auth state, the
recorder backend is never invoked and the call returns success=false with
the sign-in error message (which contains "sign in"). -/
theorem startRecording_no_uid (env : SREnv)
    (h : (env.authInfo.bind AuthInfo.user).bind AuthUser.uid = none) :
    (startRecording env).2.backendCalled = false ∧
    (startRecording env).1.success = false ∧
    (startRecording env).1.error = signInErrorMsg ∧
    strIncludes (startRecording env).1.error "sign in" = true := by
  have hu : uidTruthy env.authInfo = false := by
    unfold uidTruthy
    rw [h]
  have hs : startRecording env = catchHandler (.errVal signInErrorMsg) env false false [] := by
    unfold startRecording
    rw [hu]
    simp
  rw [hs]
  refine ⟨rfl, rfl, rfl, ?_⟩
  show strIncludes signInErrorMsg "sign in" = true
  decide

theorem startRecording_no_uid_witness :
    (startRecording ⟨none, .ok ⟨true, none⟩, .ok (), .ok (), none⟩).2.backendCalled = false ∧
    (startRecording ⟨none, .ok ⟨true, none⟩, .ok (), .ok (), none⟩).1.success = false ∧
    (startRecording ⟨none, .ok ⟨true, none⟩, .ok (), .ok (), none⟩).1.error = signInErrorMsg ∧
    strIncludes (startRecording ⟨none, .ok ⟨true, none⟩, .ok (), .ok (), none⟩).1.error
      "sign in" = true :=
  startRecording_no_uid ⟨none, .ok ⟨true, none⟩, .ok (), .ok (), none⟩ rfl

/-- C6: a backend failure whose error text contains "FFmpeg" creates
exactly one assistance task carrying the backend's error text, and the call
returns success=false with the fixed dependency message, which differs from
any backend text other than that fixed message itself. -/
theorem startRecording_ffmpeg (env : SREnv) (e : String)
    (hu : uidTruthy env.authInfo = true)
    (hb : env.backend = .ok ⟨false, some e⟩)
    (hf : strIncludes e "FFmpeg" = true)
    (hi : env.initTask = .ok ()) :
    (startRecording env).2.initTaskArgs = [e] ∧
    (startRecording env).1 = { success := false, error := ffmpegChatMsg } ∧
    (e ≠ ffmpegChatMsg → (startRecording env).1.error ≠ e) := by
  have hne : ¬ (e = "") := by
    intro he
    rw [he] at hf
    exact absurd hf (by decide)
  have hs : startRecording env =
      ({ success := false, error := ffmpegChatMsg },
       { backendCalled := true, initTaskArgs := [e], telemetryCalled := false
         dialogShown := false, authRequested := false, caught := none }) := by
    unfold startRecording
    rw [hu, hb, hi]
    simp [hne, hf]
  rw [hs]
  refine ⟨rfl, rfl, fun hne2 h2 => hne2 ?_⟩
  exact h2.symm

theorem startRecording_ffmpeg_witness :
    (startRecording ⟨some ⟨some ⟨some "u1"⟩⟩, .ok ⟨false, some "FFmpeg is not installed"⟩,
      .ok (), .ok (), none⟩).2.initTaskArgs = ["FFmpeg is not installed"] ∧
    (startRecording ⟨some ⟨some ⟨some "u1"⟩⟩, .ok ⟨false, some "FFmpeg is not installed"⟩,
      .ok (), .ok (), none⟩).1 = { success := false, error := ffmpegChatMsg } ∧
    (startRecording ⟨some ⟨some ⟨some "u1"⟩⟩, .ok ⟨false, some "FFmpeg is not installed"⟩,
      .ok (), .ok (), none⟩).1.error ≠ "FFmpeg is not installed" := by
  have h := startRecording_ffmpeg
    ⟨some ⟨some ⟨some "u1"⟩⟩, .ok ⟨false, some "FFmpeg is not installed"⟩, .ok (), .ok (), none⟩
    "FFmpeg is not installed" (by decide) rfl (by decide) rfl
  exact ⟨h.1, h.2.1, h.2.2 (by decide)⟩

/-- C8 counterexample: the backend resolves success=true together with the
non-empty error text "low disk space"; the returned result has success=true
and that same non-empty error, refuting "error is empty whenever success is
true". -/
theorem startRecording_success_error_cex :
    (startRecording ⟨some ⟨some ⟨some "u1"⟩⟩, .ok ⟨true, some "low disk space"⟩,
      .ok (), .ok (), none⟩).1.success = true ∧
    (startRecording ⟨some ⟨some ⟨some "u1"⟩⟩, .ok ⟨true, some "low disk space"⟩,
      .ok (), .ok (), none⟩).1.error = "low disk space" ∧
    (startRecording ⟨some ⟨some ⟨some "u1"⟩⟩, .ok ⟨true, some "low disk space"⟩,
      .ok (), .ok (), none⟩).1.error ≠ "" := by
  refine ⟨by decide, by decide, by decide⟩

/-- C8 amended: when the backend resolves success=true (and telemetry does
not throw), the backend's flag and error text are passed through unchanged,
the error defaulting to the empty string only when the backend supplied
none; so the returned error is empty exactly when the backend's error was
absent or empty. -/
theorem startRecording_success_passthrough (env : SREnv) (b : BackendResult)
    (hu : uidTruthy env.authInfo = true)
    (hb : env.backend = .ok b)
    (hsucc : b.success = true)
    (ht : env.telemetry = .ok ()) :
    (startRecording env).1 = { success := true, error := b.error.getD "" } := by
  unfold startRecording
  rw [hu, hb, ht]
  simp [hsucc]

theorem startRecording_success_passthrough_witness :
    (startRecording ⟨some ⟨some ⟨some "u1"⟩⟩, .ok ⟨true, none⟩, .ok (), .ok (), none⟩).1 =
      { success := true, error := "" } :=
  startRecording_success_passthrough
    ⟨some ⟨some ⟨some "u1"⟩⟩, .ok ⟨true, none⟩, .ok (), .ok (), none⟩
    ⟨true, none⟩ (by decide) rfl rfl rfl

/-- C4: evaluation at the failing input. With a signed-in user and the
backend resolving success=true, a throwing telemetry emission lands in the
top-level catch: the error dialog is shown and the call returns
success=false carrying the telemetry exception's message — not the
unchanged success=true result produced when telemetry succeeds. -/
theorem startRecording_telemetry_throw_changes_result :
    (startRecording ⟨some ⟨some ⟨some "u1"⟩⟩, .ok ⟨true, none⟩,
      .error (.errVal "telemetry exploded"), .ok (), none⟩).1 =
      { success := false, error := "telemetry exploded" } ∧
    (startRecording ⟨some ⟨some ⟨some "u1"⟩⟩, .ok ⟨true, none⟩,
      .error (.errVal "telemetry exploded"), .ok (), none⟩).2.dialogShown = true ∧
    (startRecording ⟨some ⟨some ⟨some "u1"⟩⟩, .ok ⟨true, none⟩,
      .ok (), .ok (), none⟩).1 = { success := true, error := "" } := by
  refine ⟨by decide, by decide, by decide⟩

theorem startRecording_indep_choice (ai : Option AuthInfo) (bk : Except SThrown BackendResult)
    (tel it : Except SThrown Unit) (dc c : Option String) :
    (startRecording ⟨ai, bk, tel, it, c⟩).1 = (startRecording ⟨ai, bk, tel, it, dc⟩).1 := by
  cases hu : uidTruthy ai with
  | false => simp [startRecording, hu, catchHandler]
  | true =>
    cases bk with
    | error t0 => simp [startRecording, hu, catchHandler]
    | ok r =>
      cases hr : r.success with
      | true =>
        cases tel with
        | error t0 => simp [startRecording, hu, hr, catchHandler]
        | ok u => cases u; simp [startRecording, hu, hr]
      | false =>
        cases he : r.error with
        | none => simp [startRecording, hu, hr, he]
        | some e =>
          by_cases hee : e = ""
          · simp [startRecording, hu, hr, he, hee]
          · cases hfe : strIncludes e "FFmpeg" with
            | false => simp [startRecording, hu, hr, he, hee, hfe]
            | true =>
              cases it with
              | error t0 => simp [startRecording, hu, hr, he, hee, hfe, catchHandler]
              | ok u => cases u; simp [startRecording, hu, hr, he, hee, hfe]

theorem startRecording_caught_shape (env : SREnv) (t : SThrown)
    (h : (startRecording env).2.caught = some t) :
    (startRecording env).1 = { success := false, error := sThrownMessage t } ∧
    (startRecording env).2.dialogShown = true := by
  obtain ⟨ai, bk, tel, it, dc⟩ := env
  cases hu : uidTruthy ai with
  | false =>
    have h2 : SThrown.errVal signInErrorMsg = t := by
      simpa [startRecording, hu, catchHandler] using h
    subst h2
    constructor <;> simp [startRecording, hu, catchHandler]
  | true =>
    cases bk with
    | error t0 =>
      have h2 : t0 = t := by simpa [startRecording, hu, catchHandler] using h
      subst h2
      constructor <;> simp [startRecording, hu, catchHandler]
    | ok r =>
      cases hr : r.success with
      | true =>
        cases tel with
        | error t0 =>
          have h2 : t0 = t := by simpa [startRecording, hu, hr, catchHandler] using h
          subst h2
          constructor <;> simp [startRecording, hu, hr, catchHandler]
        | ok u =>
          exact absurd h (by cases u; simp [startRecording, hu, hr])
      | false =>
        cases he : r.error with
        | none => exact absurd h (by simp [startRecording, hu, hr, he])
        | some e =>
          by_cases hee : e = ""
          · exact absurd h (by simp [startRecording, hu, hr, he, hee])
          · cases hfe : strIncludes e "FFmpeg" with
            | false => exact absurd h (by simp [startRecording, hu, hr, he, hee, hfe])
            | true =>
              cases it with
              | error t0 =>
                have h2 : t0 = t := by
                  simpa [startRecording, hu, hr, he, hee, hfe, catchHandler] using h
                subst h2
                constructor <;> simp [startRecording, hu, hr, he, hee, hfe, catchHandler]
              | ok u =>
                exact absurd h (by cases u; simp [startRecording, hu, hr, he, hee, hfe])

/-- C9 amended: every exception caught during the call (from the auth
check, the backend, telemetry or the assistance task) is handled locally:
the error dialog is shown, the call returns success=false whose error is
the exception's message when the thrown value is an `Error` instance and
the fixed text "Unknown error occurred" for any other thrown value, and the
returned result does not depend on the option the user picks in the
dialog. -/
theorem startRecording_exception_handling (env : SREnv) (t : SThrown)
    (h : (startRecording env).2.caught = some t) :
    (startRecording env).1 = { success := false, error := sThrownMessage t } ∧
    (startRecording env).2.dialogShown = true ∧
    ∀ c, (startRecording { env with dialogChoice := c }).1 = (startRecording env).1 := by
  obtain ⟨hres, hdlg⟩ := startRecording_caught_shape env t h
  refine ⟨hres, hdlg, fun c => ?_⟩
  obtain ⟨ai, bk, tel, it, dc⟩ := env
  exact startRecording_indep_choice ai bk tel it dc c

theorem startRecording_exception_handling_witness :
    (startRecording ⟨none, .ok ⟨true, none⟩, .ok (), .ok (), some "Sign in to Cline"⟩).1 =
      { success := false, error := signInErrorMsg } ∧
    (startRecording ⟨none, .ok ⟨true, none⟩, .ok (), .ok (),
      some "Sign in to Cline"⟩).2.dialogShown = true := by
  have h := startRecording_exception_handling
    ⟨none, .ok ⟨true, none⟩, .ok (), .ok (), some "Sign in to Cline"⟩
    (.errVal signInErrorMsg) rfl
  exact ⟨h.1, h.2.1⟩

/-- C9 counterexample: the backend rejects with a non-Error value (rendered
"boom"); the call returns the fixed fallback text "Unknown error occurred"
rather than anything derived from the thrown value, refuting "the error is
the exception's message" for non-Error thrown values. -/
theorem startRecording_nonError_cex :
    (startRecording ⟨some ⟨some ⟨some "u1"⟩⟩, .error (.nonError "boom"),
      .ok (), .ok (), none⟩).1 = { success := false, error := "Unknown error occurred" } ∧
    (startRecording ⟨some ⟨some ⟨some "u1"⟩⟩, .error (.nonError "boom"),
      .ok (), .ok (), none⟩).1.error ≠ "boom" :=
  ⟨by decide, by decide⟩

/-! ## getVoiceTranscriptionService (lines 116-123) -/

/-- The module state behind `getVoiceTranscriptionService`: the cached
`_voiceTranscriptionServiceInstance` (instances identified by allocation
number, `none` while still null) and the next fresh allocation number. -/
structure GState where
  cached : Option Nat
  nextId : Nat
deriving DecidableEq

/-- `getVoiceTranscriptionService`: constructs the service on first use,
caches it, and returns the cached instance afterwards. The returned `Nat`
stands for the identity of the returned object. -/
def getVoiceTranscriptionService (s : GState) : Nat × GState :=
  match s.cached with
  | none => (s.nextId, { cached := some s.nextId, nextId := s.nextId + 1 })
  | some i => (i, s)

/-- Result and state of the call number `n` (0-indexed) in a sequence of
calls starting from state `s`. -/
def nthCall : Nat → GState → Nat × GState
  | 0, s => getVoiceTranscriptionService s
  | n + 1, s => nthCall n (getVoiceTranscriptionService s).2

theorem getService_stable (s : GState) :
    getVoiceTranscriptionService (getVoiceTranscriptionService s).2 =
      ((getVoiceTranscriptionService s).1, (getVoiceTranscriptionService s).2) := by
  obtain ⟨c, n⟩ := s
  cases c <;> rfl

/-- C10: every call after the first returns the exact same instance as the
first call, and the module state never changes again after the first call,
so the instance is constructed at most once per process. -/
theorem getVoiceTranscriptionService_idempotent (s : GState) (n : Nat) :
    (nthCall n s).1 = (getVoiceTranscriptionService s).1 ∧
    (nthCall n s).2 = (getVoiceTranscriptionService s).2 := by
  induction n generalizing s with
  | zero => exact ⟨rfl, rfl⟩
  | succ n ih =>
    have hs := getService_stable s
    have h2 := ih (getVoiceTranscriptionService s).2
    constructor
    · show (nthCall n (getVoiceTranscriptionService s).2).1 = _
      rw [h2.1, hs]
    · show (nthCall n (getVoiceTranscriptionService s).2).2 = _
      rw [h2.2, hs]

end Dictation
